import Mathlib

/-!
Verification development for the zk-SNARK age-verification service
(backend/zksnark_age_verification.py and backend/zksnark_main.py).

The Python code is shallowly embedded: machine integers are Int / Nat,
Python dictionaries keyed by strings become association lists, random
draws (random.randint, secrets.token_hex) become explicit parameters,
and the current wall-clock time (datetime.now) becomes an explicit Nat
parameter.  The py_ecc bn128 curve operations that the code calls
(multiply, add, double over G1 and G2) are embedded as well, because
the shape of their results matters: py_ecc represents an affine point
as a tuple of FQ field objects (FQ is a plain class wrapping an
integer, not a Python int), and the point at infinity as Python None.
Heterogeneous Python runtime values are embedded by the inductive
PyVal below, which records exactly the type distinctions the code
inspects with isinstance.
-/

/-! ## bn128 curve constants (py_ecc.bn128) -/

def field_modulus : Nat :=
  21888242871839275222246405745257275088696311157297823662689037894645226208583

def curve_order : Nat :=
  21888242871839275222246405745257275088548364400416034343698204186575808495617

/-! ## Base field FQ: values of py_ecc FQ objects, kept reduced mod field_modulus -/

abbrev FQ := Nat

def fqAdd (a b : FQ) : FQ := (a + b) % field_modulus

def fqMul (a b : FQ) : FQ := (a * b) % field_modulus

def fqNeg (a : FQ) : FQ := (field_modulus - a % field_modulus) % field_modulus

def fqSub (a b : FQ) : FQ := fqAdd a (fqNeg b)

/-- Loop of py_ecc prime_field_inv (extended Euclid); lm, hm are the
Bezout accumulators, low and high the remainders. -/
def prime_field_inv_loop (lm hm : Int) (low high : Nat) : Int :=
  if _h : 1 < low then
    prime_field_inv_loop (hm - lm * ((high / low : Nat) : Int)) lm (high % low) low
  else lm
termination_by low
decreasing_by
  exact Nat.mod_lt high (by omega)

/-- py_ecc prime_field_inv: modular inverse by extended Euclid; the
inverse of 0 is defined to be 0, as in py_ecc. -/
def prime_field_inv (a : FQ) : FQ :=
  if a = 0 then 0
  else ((prime_field_inv_loop 1 0 a field_modulus) % (field_modulus : Int)).toNat

def fqDiv (a b : FQ) : FQ := fqMul a (prime_field_inv b)

/-! ## Quadratic extension FQ2 (py_ecc FQP with modulus polynomial x^2 + 1) -/

abbrev FQ2 := FQ × FQ

def fq2Add (a b : FQ2) : FQ2 := (fqAdd a.1 b.1, fqAdd a.2 b.2)

def fq2Sub (a b : FQ2) : FQ2 := (fqSub a.1 b.1, fqSub a.2 b.2)

def fq2Neg (a : FQ2) : FQ2 := (fqNeg a.1, fqNeg a.2)

/-- Polynomial product reduced by x^2 + 1, as py_ecc FQP.__mul__ computes
for the bn128 FQ2 modulus coefficients (1, 0). -/
def fq2Mul (a b : FQ2) : FQ2 :=
  (fqSub (fqMul a.1 b.1) (fqMul a.2 b.2), fqAdd (fqMul a.1 b.2) (fqMul a.2 b.1))

/-- Integer scalar times an FQ2 element: py_ecc FQP.__rmul__ multiplies
each coefficient. -/
def fq2Smul (k : Nat) (a : FQ2) : FQ2 := (fqMul (k % field_modulus) a.1, fqMul (k % field_modulus) a.2)

/-- Inverse in FQ2: py_ecc computes it by the generic polynomial extended
Euclid of FQP.inv; for the modulus x^2 + 1 that algorithm yields the
conjugate divided by the norm, which is what is written here. -/
def fq2Inv (a : FQ2) : FQ2 :=
  let d := fqAdd (fqMul a.1 a.1) (fqMul a.2 a.2)
  let di := prime_field_inv d
  (fqMul a.1 di, fqMul (fqNeg a.2) di)

def fq2Div (a b : FQ2) : FQ2 := fq2Mul a (fq2Inv b)

/-! ## Curve points.  py_ecc represents an affine point as a pair of field
elements and the point at infinity as Python None; Option models None. -/

abbrev G1Point := FQ × FQ

abbrev G2Point := FQ2 × FQ2

/-- py_ecc bn128 G1 generator (FQ 1, FQ 2). -/
def G1 : G1Point := (1, 2)

/-- py_ecc bn128 G2 generator. -/
def G2 : G2Point :=
  ((10857046999023057135944570762232829481370756359578518086990519993285655852781,
    11559732032986387107991004021392285783925812861821192530917403151452391805634),
   (8495653923123431417604973247489272438418190587263600148770280649306958101930,
    4082367875863433681332203403145435568316851327593401208105741076214120093531))

/-- py_ecc double on G1: m = 3 x^2 / (2 y); newx = m^2 - 2 x;
newy = -m newx + m x - y. -/
def g1_double (pt : G1Point) : G1Point :=
  let m := fqDiv (fqMul 3 (fqMul pt.1 pt.1)) (fqMul 2 pt.2)
  let newx := fqSub (fqMul m m) (fqMul 2 pt.1)
  let newy := fqSub (fqAdd (fqMul (fqNeg m) newx) (fqMul m pt.1)) pt.2
  (newx, newy)

/-- py_ecc add on G1, None handling included. -/
def g1_add (p1 p2 : Option G1Point) : Option G1Point :=
  match p1, p2 with
  | none, q => q
  | some p, none => some p
  | some (x1, y1), some (x2, y2) =>
    if x2 = x1 ∧ y2 = y1 then some (g1_double (x1, y1))
    else if x2 = x1 then none
    else
      let m := fqDiv (fqSub y2 y1) (fqSub x2 x1)
      let newx := fqSub (fqSub (fqMul m m) x1) x2
      let newy := fqSub (fqAdd (fqMul (fqNeg m) newx) (fqMul m x1)) y1
      some (newx, newy)

/-- py_ecc multiply on G1 by double-and-add; multiply(pt, 0) is None. -/
def g1_multiply (pt : G1Point) (n : Nat) : Option G1Point :=
  match n with
  | 0 => none
  | 1 => some pt
  | k + 2 =>
    if (k + 2) % 2 = 0 then g1_multiply (g1_double pt) ((k + 2) / 2)
    else g1_add (g1_multiply (g1_double pt) ((k + 2) / 2)) (some pt)
termination_by n
decreasing_by
  all_goals omega

/-- py_ecc double on G2 (same formulas over FQ2). -/
def g2_double (pt : G2Point) : G2Point :=
  let m := fq2Div (fq2Smul 3 (fq2Mul pt.1 pt.1)) (fq2Smul 2 pt.2)
  let newx := fq2Sub (fq2Mul m m) (fq2Smul 2 pt.1)
  let newy := fq2Sub (fq2Add (fq2Mul (fq2Neg m) newx) (fq2Mul m pt.1)) pt.2
  (newx, newy)

/-- py_ecc add on G2, None handling included. -/
def g2_add (p1 p2 : Option G2Point) : Option G2Point :=
  match p1, p2 with
  | none, q => q
  | some p, none => some p
  | some (x1, y1), some (x2, y2) =>
    if x2 = x1 ∧ y2 = y1 then some (g2_double (x1, y1))
    else if x2 = x1 then none
    else
      let m := fq2Div (fq2Sub y2 y1) (fq2Sub x2 x1)
      let newx := fq2Sub (fq2Sub (fq2Mul m m) x1) x2
      let newy := fq2Sub (fq2Add (fq2Mul (fq2Neg m) newx) (fq2Mul m x1)) y1
      some (newx, newy)

/-- py_ecc multiply on G2. -/
def g2_multiply (pt : G2Point) (n : Nat) : Option G2Point :=
  match n with
  | 0 => none
  | 1 => some pt
  | k + 2 =>
    if (k + 2) % 2 = 0 then g2_multiply (g2_double pt) ((k + 2) / 2)
    else g2_add (g2_multiply (g2_double pt) ((k + 2) / 2)) (some pt)
termination_by n
decreasing_by
  all_goals omega

/-- py_ecc is_on_curve for G1 with b = FQ 3: y^2 - x^3 = b. -/
def is_on_curve_g1 (pt : G1Point) : Bool :=
  fqSub (fqMul pt.2 pt.2) (fqMul pt.1 (fqMul pt.1 pt.1)) = 3

/-! ## Python runtime values, as far as the code inspects them.
vInt is a Python int, vFQ a py_ecc FQ object (not an int), vFQ2 a
py_ecc FQ2 object, vTup and vList Python tuples and lists, vNone the
Python None that py_ecc uses for the point at infinity. -/

inductive PyVal where
  | vInt (n : Int) : PyVal
  | vFQ (n : FQ) : PyVal
  | vFQ2 (c0 c1 : FQ) : PyVal
  | vTup (elems : List PyVal) : PyVal
  | vList (elems : List PyVal) : PyVal
  | vNone : PyVal

/-- Python isinstance(x, int) on an embedded value. -/
def pyIsInt : PyVal → Bool
  | .vInt _ => true
  | _ => false

/-- A tuple or list of exactly two elements; the Bool is true for a list.
Used to embed the isinstance((tuple, list)) and len == 2 tests. -/
def asPair2 : PyVal → Option (Bool × PyVal × PyVal)
  | .vTup [a, b] => some (false, a, b)
  | .vList [a, b] => some (true, a, b)
  | _ => none

/-- Python tuple(x) applied when x is a list, identity otherwise, as in
server_verify_proof. -/
def list_to_tuple : PyVal → PyVal
  | .vList l => .vTup l
  | p => p

/-- py_ecc G1 point converted to the Python value the code handles:
None for the point at infinity, otherwise a tuple of two FQ objects. -/
def g1_to_py : Option G1Point → PyVal
  | none => .vNone
  | some (x, y) => .vTup [.vFQ x, .vFQ y]

/-- py_ecc G2 point converted to a Python value: None for infinity,
otherwise a tuple of two FQ2 objects. -/
def g2_to_py : Option G2Point → PyVal
  | none => .vNone
  | some (x, y) => .vTup [.vFQ2 x.1 x.2, .vFQ2 y.1 y.2]

/-! ## ZKSNARKAgeCircuit (backend/zksnark_age_verification.py) -/

/-- TrustedSetup dataclass: the value returned by _generate_trusted_setup
and stored as self.setup; note that it carries the four toxic-waste
scalars alongside the verification-key components. -/
structure TrustedSetup where
  alpha : Nat
  beta : Nat
  gamma : Nat
  delta : Nat
  gamma_abc : List (Option G1Point)
  ic : List (Option G1Point)

/-- The random.randint draws consumed by _generate_trusted_setup: the four
toxic-waste scalars and the scalars of the three gamma_abc and three ic
group elements produced by its loop. -/
structure SetupRandomness where
  alpha : Nat
  beta : Nat
  gamma : Nat
  delta : Nat
  gamma_abc_scalars : List Nat
  ic_scalars : List Nat

/-- _generate_trusted_setup: returns the TrustedSetup built from the drawn
scalars; each gamma_abc and ic entry is multiply(G1, random scalar). -/
def generate_trusted_setup (rnd : SetupRandomness) : TrustedSetup :=
  { alpha := rnd.alpha
    beta := rnd.beta
    gamma := rnd.gamma
    delta := rnd.delta
    gamma_abc := rnd.gamma_abc_scalars.map (fun k => g1_multiply G1 k)
    ic := rnd.ic_scalars.map (fun k => g1_multiply G1 k) }

/-- ZKSNARKAgeCircuit instance state after __init__: the stored setup and
field_size = curve_order. -/
structure ZKSNARKAgeCircuit where
  setup : TrustedSetup
  field_size : Nat

/-- ZKSNARKAgeCircuit.__init__. -/
def init_circuit (rnd : SetupRandomness) : ZKSNARKAgeCircuit :=
  { setup := generate_trusted_setup rnd, field_size := curve_order }

/-- _age_constraint_circuit: actual_age >= minimum_age. -/
def age_constraint_circuit (actual_age minimum_age : Int) : Bool :=
  decide (actual_age ≥ minimum_age)

/-- The witness dictionary built by _polynomial_evaluation. -/
structure WitnessAssignment where
  actual_age : Int
  minimum_age : Int
  result : Int
  intermediate : Int

/-- _polynomial_evaluation: reduces the inputs and their difference modulo
field_size = curve_order (Python % on a positive modulus, which Int.emod
matches) and records result = 1 iff actual_age >= minimum_age.  It
performs no range validation of any kind. -/
def polynomial_evaluation (actual_age minimum_age : Int) : WitnessAssignment :=
  { actual_age := actual_age % (curve_order : Int)
    minimum_age := minimum_age % (curve_order : Int)
    result := if actual_age ≥ minimum_age then 1 else 0
    intermediate := (actual_age - minimum_age) % (curve_order : Int) }

/-- The Proof dataclass; each component is whatever Python value py_ecc
multiply returned. -/
structure Proof where
  a : PyVal
  b : PyVal
  c : PyVal

/-- The random.randint draws consumed by generate_proof in order:
r, s (drawn and never used), then a_val, b_val, c_val. -/
structure ProofRandomness where
  r : Nat
  s : Nat
  a_val : Nat
  b_val : Nat
  c_val : Nat

/-- generate_proof: returns None when the constraint is unsatisfied,
otherwise builds the witness (unused by the proof elements), computes
proof elements from the random scalars alone, and returns the proof with
public_inputs = [minimum_age, 1]. -/
def generate_proof (actual_age minimum_age : Int) (rnd : ProofRandomness) :
    Option (Proof × List Int) :=
  if !(age_constraint_circuit actual_age minimum_age) then none
  else
    let _witness := polynomial_evaluation actual_age minimum_age
    let proof_a := g1_to_py (g1_multiply G1 rnd.a_val)
    let proof_b := g2_to_py (g2_multiply G2 rnd.b_val)
    let proof_c := g1_to_py (g1_multiply G1 rnd.c_val)
    some ({ a := proof_a, b := proof_b, c := proof_c }, [minimum_age, 1])

/-- _is_valid_g1_point: a tuple or list of length two whose two entries are
Python ints. -/
def is_valid_g1_point (p : PyVal) : Bool :=
  match asPair2 p with
  | some (_, x, y) => pyIsInt x && pyIsInt y
  | none => false

/-- _is_valid_g2_point: a tuple or list of length two; when both entries
are themselves pairs (tuples or lists of length two) of the same kind,
all four leaves must be ints (mixed tuple plus list raises TypeError on
concatenation, caught by the bare except, giving False); when either
entry is not such a pair the code returns True (its simplified branch). -/
def is_valid_g2_point (p : PyVal) : Bool :=
  match asPair2 p with
  | none => false
  | some (_, c1, c2) =>
    match asPair2 c1, asPair2 c2 with
    | some (k1, a, b), some (k2, c, d) =>
      if k1 = k2 then pyIsInt a && pyIsInt b && pyIsInt c && pyIsInt d
      else false
    | _, _ => true

/-- verify_proof: unpacking public_inputs requires exactly two entries
(otherwise the ValueError is caught by the except, giving False); then
result must be 1; then the three structural point checks; the final
check accepts whenever result = 1 and minimum_age >= 0.  No pairing is
ever evaluated. -/
def verify_proof (pa pb pc : PyVal) (public_inputs : List Int) : Bool :=
  match public_inputs with
  | [minimum_age, result] =>
    if result ≠ 1 then false
    else if !(is_valid_g1_point pa && is_valid_g2_point pb && is_valid_g1_point pc) then false
    else if result = 1 ∧ minimum_age ≥ 0 then true
    else false
  | _ => false

/-! ## ZKSNARKAgeVerifier (same file) -/

/-- The proof_data dictionary assembled by client_generate_proof; the
nested proof dictionary is flattened into the three point fields.
timestamp embeds the secrets.token_hex(16) draw. -/
structure ProofData where
  proof_a : PyVal
  proof_b : PyVal
  proof_c : PyVal
  public_inputs : List Int
  challenge : String
  timestamp : String

/-- client_generate_proof: generates the proof (None when refused) and
packages it with the public inputs, the challenge string and the random
timestamp token. -/
def client_generate_proof (actual_age minimum_age : Int) (challenge : String)
    (rnd : ProofRandomness) (ts : String) : Option ProofData :=
  match generate_proof actual_age minimum_age rnd with
  | none => none
  | some (proof, public_inputs) =>
    some { proof_a := proof.a, proof_b := proof.b, proof_c := proof.c
           public_inputs := public_inputs, challenge := challenge, timestamp := ts }

/-- generate_challenge: stores the freshly drawn token in the
active_challenges dictionary (a set of strings here). -/
def generate_challenge (c : String) (active_challenges : List String) : List String :=
  if c ∈ active_challenges then active_challenges else c :: active_challenges

/-- server_verify_proof: rejects unless the submitted challenge is active,
deletes it, converts lists to tuples in the proof points, and delegates to
verify_proof.  The challenge recorded inside proof_data and its timestamp
are never read. -/
def server_verify_proof (pd : ProofData) (challenge : String)
    (active_challenges : List String) : Bool × List String :=
  if challenge ∉ active_challenges then (false, active_challenges)
  else
    let ac := active_challenges.filter (fun c => c != challenge)
    let a_point := list_to_tuple pd.proof_a
    let b_point :=
      match pd.proof_b with
      | .vList l => .vTup (l.map list_to_tuple)
      | p => p
    let c_point := list_to_tuple pd.proof_c
    (verify_proof a_point b_point c_point pd.public_inputs, ac)

/-! ## FastAPI layer (backend/zksnark_main.py).  String constants of the
endpoint are named here so theorems can mention them. -/

def msg_challenge_generated : String := "Challenge generated. Generate proof on client side."

def msg_invalid_session : String := "Invalid session ID"

def msg_challenge_mismatch : String := "Challenge mismatch"

def msg_min_age_mismatch : String := "Minimum age mismatch"

def msg_valid_proof : String := "Age verification successful ✅"

def msg_invalid_proof : String := "Invalid proof ❌"

def zkp_type_str : String := "zk-SNARKs"

def crypto_security_str : String := "Bilinear pairings on elliptic curves"

def status_pending : String := "pending"

def status_completed : String := "completed"

/-- One entry of active_sessions: challenge, minimum_age, created_at and
status are set on creation; result and verified_at appear once
verify_zkproof has run.  created_at and verified_at embed the
datetime.now().isoformat() readings as abstract instants. -/
structure Session where
  challenge : String
  minimum_age : Int
  created_at : Nat
  status : String
  result : Option Bool
  verified_at : Option Nat

/-- The global mutable state of the service: the verifier
active_challenges dictionary (a set of token strings) and the
active_sessions dictionary (an association list keyed by session id). -/
structure ServerState where
  active_challenges : List String
  active_sessions : List (String × Session)

/-- Python dict lookup on the session map. -/
def lookup_session (sid : String) : List (String × Session) → Option Session
  | [] => none
  | (k, v) :: rest => if k = sid then some v else lookup_session sid rest

/-- Python dict assignment on the session map: replaces the entry when the
key exists, appends otherwise. -/
def store_session (sid : String) (s : Session) : List (String × Session) → List (String × Session)
  | [] => [(sid, s)]
  | (k, v) :: rest =>
    if k = sid then (sid, s) :: rest else (k, v) :: store_session sid s rest

/-- The ChallengeResponse model of the request-challenge endpoint. -/
structure ChallengeResponse where
  challenge : String
  minimum_age : Int
  session_id : String
  message : String

/-- request_challenge: draws a challenge token and a session id (explicit
parameters here), registers the challenge with the verifier, and stores a
pending session recording the requested minimum age and the creation
instant.  No expiry information beyond created_at is kept, and nothing
ever reads created_at again. -/
def request_challenge (st : ServerState) (challenge session_id : String)
    (minimum_age : Int) (now : Nat) : ChallengeResponse × ServerState :=
  let ac := generate_challenge challenge st.active_challenges
  let session : Session :=
    { challenge := challenge, minimum_age := minimum_age, created_at := now
      status := status_pending, result := none, verified_at := none }
  ({ challenge := challenge, minimum_age := minimum_age, session_id := session_id
     message := msg_challenge_generated },
   { active_challenges := ac
     active_sessions := store_session session_id session st.active_sessions })

/-- The ZKProofRequest model: the proof dictionary (flattened to its three
points), the public inputs, the challenge and the session id. -/
structure ZKProofRequest where
  proof_a : PyVal
  proof_b : PyVal
  proof_c : PyVal
  public_inputs : List Int
  challenge : String
  session_id : String

/-- The verification_details dictionary of the response. -/
structure VerificationDetails where
  zkp_type : String
  proof_verified : Bool
  server_learned_age : Bool
  minimum_age_required : Int
  cryptographic_security : String
  session_id : String

/-- Outcome of the verify-zkproof endpoint: either the ZKProofResponse
model or a raised HTTPException with its status code and detail. -/
inductive VerifyOutcome where
  | ok (is_valid : Bool) (message : String) (details : VerificationDetails)
  | http_error (status_code : Nat) (detail : String)

/-- verify_zkproof: validates the session id, the challenge match and the
recorded minimum age, then packages the proof (stamping the current
instant as its timestamp) and delegates to server_verify_proof; finally
marks the session completed with the obtained result.  Nothing compares
the current instant with created_at, and a completed session is looked up
and processed exactly like a pending one. -/
def verify_zkproof (st : ServerState) (req : ZKProofRequest) (now : Nat) :
    VerifyOutcome × ServerState :=
  match lookup_session req.session_id st.active_sessions with
  | none => (.http_error 400 msg_invalid_session, st)
  | some session =>
    if session.challenge ≠ req.challenge then
      (.http_error 400 msg_challenge_mismatch, st)
    else
      match req.public_inputs with
      | [] => (.http_error 400 msg_min_age_mismatch, st)
      | first :: _ =>
        if first ≠ session.minimum_age then (.http_error 400 msg_min_age_mismatch, st)
        else
          let pd : ProofData :=
            { proof_a := req.proof_a, proof_b := req.proof_b, proof_c := req.proof_c
              public_inputs := req.public_inputs, challenge := req.challenge
              timestamp := toString now }
          let res := server_verify_proof pd req.challenge st.active_challenges
          let session2 : Session :=
            { session with status := status_completed, result := some res.1
                           verified_at := some now }
          let details : VerificationDetails :=
            { zkp_type := zkp_type_str, proof_verified := res.1
              server_learned_age := false, minimum_age_required := session.minimum_age
              cryptographic_security := crypto_security_str, session_id := req.session_id }
          (.ok res.1 (if res.1 then msg_valid_proof else msg_invalid_proof) details,
           { active_challenges := res.2
             active_sessions := store_session req.session_id session2 st.active_sessions })

/-! ## Concrete fixtures used by the closed theorems below -/

/-- A fixed challenge token (standing for one secrets.token_hex draw). -/
def tok_c1 : String := "c1"

/-- A second, distinct challenge token. -/
def tok_c2 : String := "c2"

/-- A fixed timestamp token. -/
def tok_ts : String := "t"

/-- A fixed session id. -/
def sid1 : String := "s1"

/-- Fixed randomness for the prover: all five randint draws equal 1. -/
def rnd_ones : ProofRandomness := { r := 1, s := 1, a_val := 1, b_val := 1, c_val := 1 }

/-- A G1 proof point as it arrives over the wire through the JSON body:
a list of two Python ints (here 0, 0 — not even a point of the curve). -/
def wire_g1_zero : PyVal := .vList [.vInt 0, .vInt 0]

/-- A wire G2 proof point: a list of two lists of two ints. -/
def wire_g2_zero : PyVal := .vList [.vList [.vInt 0, .vInt 0], .vList [.vInt 0, .vInt 0]]

/-- Server state right after request-challenge stored session sid1 with
minimum_age 18 and challenge tok_c1 at instant 0. -/
def demo_state : ServerState :=
  (request_challenge { active_challenges := [], active_sessions := [] }
    tok_c1 sid1 18 0).2

/-- Server state whose session sid1 records minimum_age 21 instead. -/
def strict_state : ServerState :=
  (request_challenge { active_challenges := [], active_sessions := [] }
    tok_c1 sid1 21 0).2

/-- A structurally well-formed wire request for session sid1: garbage
all-zero points, public inputs [18, 1]. -/
def demo_request : ZKProofRequest :=
  { proof_a := wire_g1_zero, proof_b := wire_g2_zero, proof_c := wire_g1_zero
    public_inputs := [18, 1], challenge := tok_c1, session_id := sid1 }

/-- The same request with a structurally invalid first point (a bare int),
which the verifier rejects as a bad proof. -/
def bad_request : ZKProofRequest :=
  { demo_request with proof_a := .vInt 0 }

/-- The verification_details of an accepting run on demo_state. -/
def demo_details_ok : VerificationDetails :=
  { zkp_type := zkp_type_str, proof_verified := true, server_learned_age := false
    minimum_age_required := 18, cryptographic_security := crypto_security_str
    session_id := sid1 }

/-- The verification_details of a rejecting run on demo_state. -/
def demo_details_fail : VerificationDetails :=
  { zkp_type := zkp_type_str, proof_verified := false, server_learned_age := false
    minimum_age_required := 18, cryptographic_security := crypto_security_str
    session_id := sid1 }

/-! ## Helper lemmas -/

/-- Every G1 element py_ecc multiply can return — the point at infinity
(None) or a tuple of two FQ objects — fails _is_valid_g1_point, whose
leaf test is isinstance(coordinate, int). -/
theorem is_valid_g1_point_of_multiply_eq_false (k : Nat) :
    is_valid_g1_point (list_to_tuple (g1_to_py (g1_multiply G1 k))) = false := by
  cases h : g1_multiply G1 k with
  | none => rfl
  | some p =>
    obtain ⟨x, y⟩ := p
    rfl

/-- server_verify_proof never reads the challenge or timestamp recorded
inside proof_data; its result depends only on the points, the public
inputs, the separately submitted challenge and the active set. -/
theorem server_verify_proof_ignores_recorded_challenge
    (pa pb pc : PyVal) (pi : List Int) (ch1 ch2 ts1 ts2 subm : String)
    (ac : List String) :
    server_verify_proof
        { proof_a := pa, proof_b := pb, proof_c := pc
          public_inputs := pi, challenge := ch1, timestamp := ts1 } subm ac
      = server_verify_proof
        { proof_a := pa, proof_b := pb, proof_c := pc
          public_inputs := pi, challenge := ch2, timestamp := ts2 } subm ac := rfl

/-! ## Claim theorems -/

/-- C1: the claim that verify_proof evaluates the pairing equation and
accepts only proofs whose group elements satisfy it is false of the
code: verify_proof accepts a proof whose points are the integer pair
(0, 0) — which does not even lie on the bn128 curve, hence satisfies no
pairing equation — because after the structural isinstance checks it
only tests result = 1 and minimum_age >= 0; the same garbage bundle is
accepted end to end by server_verify_proof under an active challenge. -/
theorem C1_verify_proof_accepts_offcurve_garbage :
    verify_proof (.vTup [.vInt 0, .vInt 0])
        (.vTup [.vTup [.vInt 0, .vInt 0], .vTup [.vInt 0, .vInt 0]])
        (.vTup [.vInt 0, .vInt 0]) [18, 1] = true
    ∧ is_on_curve_g1 (0, 0) = false
    ∧ (server_verify_proof
          { proof_a := wire_g1_zero, proof_b := wire_g2_zero, proof_c := wire_g1_zero
            public_inputs := [18, 1], challenge := tok_c1, timestamp := tok_ts }
          tok_c1 [tok_c1]).1 = true := by
  refine ⟨rfl, by decide, rfl⟩

/-- C2: soundness of refusal — whenever actual_age < minimum_age,
generate_proof returns None and therefore client_generate_proof also
returns None: no proof artifact exists for a false statement. -/
theorem C2_generate_proof_refuses_false_statement
    (actual_age minimum_age : Int) (h : actual_age < minimum_age)
    (rnd : ProofRandomness) (challenge ts : String) :
    generate_proof actual_age minimum_age rnd = none
    ∧ client_generate_proof actual_age minimum_age challenge rnd ts = none := by
  have hb : age_constraint_circuit actual_age minimum_age = false := by
    unfold age_constraint_circuit
    simp only [decide_eq_false_iff_not]
    omega
  refine ⟨?_, ?_⟩
  · unfold generate_proof
    rw [hb]
    rfl
  · unfold client_generate_proof generate_proof
    rw [hb]
    rfl

/-- Witness for C2 at actual_age 16, minimum_age 18. -/
theorem C2_generate_proof_refuses_false_statement_witness :
    generate_proof 16 18 rnd_ones = none
    ∧ client_generate_proof 16 18 tok_c1 rnd_ones tok_ts = none :=
  C2_generate_proof_refuses_false_statement 16 18 (by decide) rnd_ones tok_c1 tok_ts

/-- C3 (completeness fails): every honestly generated proof is rejected
by server_verify_proof even on its first submission with an active
challenge, because py_ecc multiply returns points whose coordinates are
FQ objects (or None), and _is_valid_g1_point requires Python ints — so
the structural validation fails for the very proofs the prover emits. -/
theorem C3_honest_proof_rejected_on_first_submission
    (actual_age minimum_age : Int) (h : minimum_age ≤ actual_age)
    (challenge ts : String) (rnd : ProofRandomness) (ac : List String)
    (hc : challenge ∈ ac) :
    (client_generate_proof actual_age minimum_age challenge rnd ts).map
        (fun pd => (server_verify_proof pd challenge ac).1) = some false := by
  have hb : age_constraint_circuit actual_age minimum_age = true := by
    unfold age_constraint_circuit
    exact decide_eq_true h
  unfold client_generate_proof generate_proof
  rw [hb]
  simp [server_verify_proof, hc, verify_proof, is_valid_g1_point_of_multiply_eq_false]

/-- Witness for C3: the demo scenario itself (actual_age 25,
minimum_age 18, fresh challenge) is rejected. -/
theorem C3_honest_proof_rejected_on_first_submission_witness :
    (client_generate_proof 25 18 tok_c1 rnd_ones tok_ts).map
        (fun pd => (server_verify_proof pd tok_c1 [tok_c1]).1) = some false :=
  C3_honest_proof_rejected_on_first_submission 25 18 (by decide) tok_c1 tok_ts
    rnd_ones [tok_c1] (by simp)

/-- C4: zero-knowledge noninterference of the prover output — for two
actual ages that both satisfy the predicate and identical random draws,
client_generate_proof yields identical proof bundles (points, public
inputs, challenge and timestamp fields all equal). -/
theorem C4_prover_output_independent_of_actual_age
    (a1 a2 minimum_age : Int) (h1 : minimum_age ≤ a1) (h2 : minimum_age ≤ a2)
    (challenge ts : String) (rnd : ProofRandomness) :
    client_generate_proof a1 minimum_age challenge rnd ts
      = client_generate_proof a2 minimum_age challenge rnd ts := by
  have hb1 : age_constraint_circuit a1 minimum_age = true := by
    unfold age_constraint_circuit
    exact decide_eq_true h1
  have hb2 : age_constraint_circuit a2 minimum_age = true := by
    unfold age_constraint_circuit
    exact decide_eq_true h2
  unfold client_generate_proof generate_proof
  rw [hb1, hb2]

/-- Witness for C4 at ages 19 and 65 against threshold 18. -/
theorem C4_prover_output_independent_of_actual_age_witness :
    client_generate_proof 19 18 tok_c1 rnd_ones tok_ts
      = client_generate_proof 65 18 tok_c1 rnd_ones tok_ts :=
  C4_prover_output_independent_of_actual_age 19 65 18 (by decide) (by decide)
    tok_c1 tok_ts rnd_ones

/-- C5 counterexample: after a first accepted submission, resubmitting
the identical valid proof/challenge pair produces exactly the same
outcome as submitting a structurally invalid proof on a fresh session —
the plain is_valid = false response with the generic invalid-proof
message — so no SessionAlreadyCompleted error distinguishable from an
invalid-proof result exists. -/
theorem C5_counterexample_replay_indistinguishable_from_bad_proof :
    (verify_zkproof (verify_zkproof demo_state demo_request 5).2 demo_request 6).1
      = (verify_zkproof demo_state bad_request 7).1
    ∧ (verify_zkproof (verify_zkproof demo_state demo_request 5).2 demo_request 6).1
      = .ok false msg_invalid_proof demo_details_fail := ⟨rfl, rfl⟩

/-- C5 amended: the first submission of the valid wire proof is accepted;
the second submission of the very same proof/challenge pair is rejected,
but only through the generic invalid-proof response (is_valid false,
message Invalid proof), the session having been marked completed — there
is no distinct protocol-misuse error. -/
theorem C5_amended_replay_rejected_only_generically :
    (verify_zkproof demo_state demo_request 5).1
      = .ok true msg_valid_proof demo_details_ok
    ∧ (verify_zkproof (verify_zkproof demo_state demo_request 5).2 demo_request 6).1
      = .ok false msg_invalid_proof demo_details_fail
    ∧ (lookup_session sid1
        (verify_zkproof demo_state demo_request 5).2.active_sessions).map Session.status
      = some status_completed := ⟨rfl, rfl, rfl⟩

/-- C6 counterexample: the session of demo_state was created at instant 0;
submitting the proof at instant 1000000000 — far beyond any five-minute
TTL — is still accepted, so no expiry exists. -/
theorem C6_counterexample_stale_challenge_accepted :
    (verify_zkproof demo_state demo_request 1000000000).1
      = .ok true msg_valid_proof demo_details_ok := rfl

/-- C6 amended: challenges and sessions never expire — the outcome of
verify_zkproof is independent of the instant at which it runs, because
created_at is stored but never read back. -/
theorem C6_amended_outcome_independent_of_time
    (st : ServerState) (req : ZKProofRequest) (n1 n2 : Nat) :
    (verify_zkproof st req n1).1 = (verify_zkproof st req n2).1 := by
  unfold verify_zkproof
  cases lookup_session req.session_id st.active_sessions with
  | none => rfl
  | some sess =>
    dsimp only
    by_cases hch : sess.challenge = req.challenge
    · have hch2 : ¬sess.challenge ≠ req.challenge := by simp [hch]
      conv_lhs => rw [if_neg hch2]
      conv_rhs => rw [if_neg hch2]
      cases req.public_inputs with
      | nil => rfl
      | cons f rest =>
        dsimp only
        by_cases hf : f = sess.minimum_age
        · have hf2 : ¬f ≠ sess.minimum_age := by simp [hf]
          conv_lhs => rw [if_neg hf2]
          conv_rhs => rw [if_neg hf2]
          dsimp only
          rw [server_verify_proof_ignores_recorded_challenge
            req.proof_a req.proof_b req.proof_c (f :: rest) req.challenge req.challenge
            (toString n1) (toString n2) req.challenge st.active_challenges]
        · have hf2 : f ≠ sess.minimum_age := hf
          conv_lhs => rw [if_pos hf2]
          conv_rhs => rw [if_pos hf2]
    · have hch2 : sess.challenge ≠ req.challenge := hch
      conv_lhs => rw [if_pos hch2]
      conv_rhs => rw [if_pos hch2]

/-- C7: threshold binding — whenever the session matching the request
exists and its challenge matches, but the first public input differs
from the minimum age recorded for that session (in particular a proof
carrying minimum_age 18 sent to a session recording 21), verify_zkproof
rejects with the dedicated minimum-age-mismatch error; hence any
processed (non-error) outcome has public_inputs[0] equal to the
recorded minimum age. -/
theorem C7_threshold_binding_on_recorded_minimum_age
    (st : ServerState) (req : ZKProofRequest) (now : Nat) (sess : Session)
    (hs : lookup_session req.session_id st.active_sessions = some sess)
    (hch : sess.challenge = req.challenge)
    (hm : req.public_inputs.head? ≠ some sess.minimum_age) :
    (verify_zkproof st req now).1 = .http_error 400 msg_min_age_mismatch := by
  unfold verify_zkproof
  rw [hs]
  dsimp only
  rw [if_neg (show ¬sess.challenge ≠ req.challenge from by simp [hch])]
  cases hpi : req.public_inputs with
  | nil => rfl
  | cons f rest =>
    dsimp only
    rw [if_pos (show f ≠ sess.minimum_age from by
      intro hf
      exact hm (by simp [hpi, hf]))]

/-- Witness for C7: a proof bundle with public inputs [18, 1] submitted
to a session that recorded minimum_age 21 is rejected with the
minimum-age-mismatch error even though its challenge is active and the
bundle is otherwise the accepted demo bundle. -/
theorem C7_threshold_binding_on_recorded_minimum_age_witness :
    (verify_zkproof strict_state demo_request 3).1
      = .http_error 400 msg_min_age_mismatch :=
  C7_threshold_binding_on_recorded_minimum_age strict_state demo_request 3
    { challenge := tok_c1, minimum_age := 21, created_at := 0
      status := status_pending, result := none, verified_at := none }
    rfl rfl (by decide)

/-- C8 counterexample: the challenge is not bound into the proof
elements — for the same random draws, proofs generated for the distinct
challenges c1 and c2 have identical points and identical public inputs;
only the loose challenge field of the bundle differs. -/
theorem C8_counterexample_proof_elements_identical_across_challenges :
    tok_c1 ≠ tok_c2
    ∧ (client_generate_proof 25 18 tok_c1 rnd_ones tok_ts).map
          (fun pd => (pd.proof_a, pd.proof_b, pd.proof_c, pd.public_inputs))
      = (client_generate_proof 25 18 tok_c2 rnd_ones tok_ts).map
          (fun pd => (pd.proof_a, pd.proof_b, pd.proof_c, pd.public_inputs)) :=
  ⟨by decide, rfl⟩

/-- C8 amended: no challenge binding exists anywhere — the proof elements
and public inputs produced by client_generate_proof do not depend on the
challenge; server_verify_proof never reads the challenge recorded in the
bundle, deciding only from the submitted challenge and the points; and a
wire bundle whose recorded challenge is c1 is accepted when submitted
under the different active challenge c2. -/
theorem C8_amended_challenge_never_bound
    (a m : Int) (c1 c2 ts : String) (rnd : ProofRandomness)
    (pa pb pc : PyVal) (pi : List Int) (ch1 ch2 ts1 ts2 subm : String)
    (ac : List String) :
    (client_generate_proof a m c1 rnd ts).map
        (fun pd => (pd.proof_a, pd.proof_b, pd.proof_c, pd.public_inputs))
      = (client_generate_proof a m c2 rnd ts).map
          (fun pd => (pd.proof_a, pd.proof_b, pd.proof_c, pd.public_inputs))
    ∧ server_verify_proof
        { proof_a := pa, proof_b := pb, proof_c := pc
          public_inputs := pi, challenge := ch1, timestamp := ts1 } subm ac
      = server_verify_proof
        { proof_a := pa, proof_b := pb, proof_c := pc
          public_inputs := pi, challenge := ch2, timestamp := ts2 } subm ac
    ∧ (server_verify_proof
        { proof_a := wire_g1_zero, proof_b := wire_g2_zero, proof_c := wire_g1_zero
          public_inputs := [18, 1], challenge := tok_c1, timestamp := tok_ts }
        tok_c2 [tok_c2]).1 = true := by
  refine ⟨?_, rfl, rfl⟩
  unfold client_generate_proof generate_proof
  cases h : age_constraint_circuit a m with
  | false => rfl
  | true => rfl

/-- C9: no input range validation exists — generate_proof builds a
witness and emits a proof for every integer pair satisfying the bare
inequality, regardless of the [0, 150] sanity bound: acceptance is
exactly the inequality, an oversized age of 151 and the negative pair
(-5, -10) both yield proofs, and _polynomial_evaluation happily builds
the witness for age 151. -/
theorem C9_out_of_range_ages_accepted :
    (∀ (a m : Int) (rnd : ProofRandomness),
        (generate_proof a m rnd).isSome = decide (a ≥ m))
    ∧ (generate_proof 151 18 rnd_ones).isSome = true
    ∧ (generate_proof (-5) (-10) rnd_ones).isSome = true
    ∧ polynomial_evaluation 151 18
      = { actual_age := 151, minimum_age := 18, result := 1, intermediate := 133 } := by
  refine ⟨?_, rfl, rfl, rfl⟩
  intro a m rnd
  unfold generate_proof age_constraint_circuit
  cases h : decide (a ≥ m) with
  | false => simp [h]
  | true => simp [h]

/-- C10: the toxic-waste scalars are retained — the TrustedSetup value
returned by _generate_trusted_setup and stored for the process lifetime
as the circuit setup carries alpha, beta, gamma and delta verbatim, so
each scalar remains reachable through an accessor of the durable state. -/
theorem C10_toxic_waste_scalars_retained (rnd : SetupRandomness) :
    (init_circuit rnd).setup.alpha = rnd.alpha
    ∧ (init_circuit rnd).setup.beta = rnd.beta
    ∧ (init_circuit rnd).setup.gamma = rnd.gamma
    ∧ (init_circuit rnd).setup.delta = rnd.delta :=
  ⟨rfl, rfl, rfl, rfl⟩
